import Mathlib

/-!
Verification development for the svsal-factory document analysis engine
(`api/v1/docs/analysis.py` and `api/v1/xutils.py`).

The XML tree abstraction is shallowly embedded: a node is modelled together
with its document context (ancestor chain and preceding siblings), which is
all the tree navigation the analysed code performs (`self::` tests,
`ancestor::` axis, `preceding-sibling::` axis, attribute access).  Qualified
tag names such as `tei:div` are modelled as plain strings: the namespace
table of `xutils.py` is a fixed prefix-to-URI mapping, so a prefixed name
stands for the resolved (URI, local-name) pair throughout.
-/

namespace Svsal

/-- The three node kinds distinguished by the code: ordinary elements,
comment nodes and processing-instruction nodes.  In lxml the latter two are
implemented as subclasses of `_Element`, which is why `xutils.is_element`
must explicitly rule them out. -/
inductive NodeKind where
  | element
  | comment
  | procInstr
  deriving DecidableEq, Repr

/-- A tree node as the analysed code observes it: its kind, its qualified
tag name (e.g. `"tei:div"`), and its attributes (qualified name / value
pairs; `xml:id` is stored under the key `"xml:id"`). -/
structure XmlNode where
  kind : NodeKind
  name : String
  attrs : List (String × String)
  deriving DecidableEq, Repr

/-- A node in its document context.  `ancestors` is the ancestor chain in
document order (root first, parent last) — the order in which lxml returns
the `ancestor::*` axis (node-sets come back document-ordered; the source
comments on this when it reverses the list).  `precSiblings` are the
preceding siblings in document order (first sibling first). -/
structure NodeCtx where
  self : XmlNode
  ancestors : List XmlNode
  precSiblings : List XmlNode
  deriving DecidableEq, Repr

/-- An XPath name test such as `self::tei:div`: in XPath a name test on any
axis selects only element nodes (comments and processing instructions are
never matched by a name test or by `*`). -/
def nameTest (x : XmlNode) (q : String) : Bool :=
  x.kind == NodeKind.element && x.name == q

/-- Each ancestor paired with its own ancestor chain (root first).  For
`ancestors = [a0, a1, a2]` (root first) this yields
`[(a0, []), (a1, [a0]), (a2, [a0, a1])]`.  Used to evaluate nested XPath
predicates such as `ancestor::*[self::tei:div and ancestor::tei:text]`,
where the inner `ancestor::` step is relative to the outer ancestor. -/
def ancestorContexts : List XmlNode → List (XmlNode × List XmlNode)
  | [] => []
  | a :: rest => (a, []) :: (ancestorContexts rest).map (fun p => (p.1, a :: p.2))

/-- `node.get(key)` of lxml: the attribute's value, or Python `None`
(modelled as `Option.none`) when the attribute is absent. -/
def pyGet (x : XmlNode) (key : String) : Option String :=
  (x.attrs.find? (fun kv => kv.1 == key)).map (fun kv => kv.2)

/-- Python truthiness of a string: non-empty. -/
def py_truthy (s : String) : Bool :=
  !(s == "")

/-- `xutils.get_xml_id`: evaluates `@xml:id` on the node; if exactly one
such attribute exists its value is returned, otherwise the empty string. -/
def get_xml_id (x : XmlNode) : String :=
  match x.attrs.filter (fun kv => kv.1 == "xml:id") with
  | [kv] => kv.2
  | _ => ""

/-- `xutils.is_element`: every `XmlNode` models an lxml `_Element` instance
(text nodes are not `XmlNode`s), and the code subtracts the
`_ProcessingInstruction` and `_Comment` subclasses. -/
def is_element (node : XmlNode) : Bool :=
  !(node.kind == NodeKind.procInstr || node.kind == NodeKind.comment)

/-- The character class of Python's `re` pattern `\s` over `str`:
`[ \t\n\r\f\v]` together with the further Unicode whitespace code points. -/
def python_re_whitespace (ch : Char) : Bool :=
  ch == ' ' || ch == '\t' || ch == '\n' || ch == '\r' || ch == '\x0b' || ch == '\x0c'
  || ch == '\x1c' || ch == '\x1d' || ch == '\x1e' || ch == '\x1f'
  || ch == '\u0085' || ch == '\u00a0' || ch == '\u1680'
  || ch == '\u2000' || ch == '\u2001' || ch == '\u2002' || ch == '\u2003'
  || ch == '\u2004' || ch == '\u2005' || ch == '\u2006' || ch == '\u2007'
  || ch == '\u2008' || ch == '\u2009' || ch == '\u200a'
  || ch == '\u2028' || ch == '\u2029' || ch == '\u202f' || ch == '\u205f'
  || ch == '\u3000'

/-- `xutils.is_more_than_whitespace`: `bool(re.match(r'\S', string))`.
`re.match` anchors at the start of the string, so the call produces a match
object exactly when the string is non-empty and its first character is not
whitespace; `bool` of the result is the return value. -/
def is_more_than_whitespace (s : String) : Bool :=
  match s.data with
  | [] => false
  | c :: _ => !python_re_whitespace c

/-- The spec's description of the whitespace-significance test, stated in
its own words for comparison: true iff the string contains at least one
non-whitespace character (at any position). -/
def contains_non_whitespace (s : String) : Bool :=
  s.data.any (fun c => !python_re_whitespace c)

/-- `xutils.get_list_type`.  First branch: `exists(node,
'self::tei:list[@type]')` returns `node.get('type')`.  Second branch:
`exists(node, 'ancestor::tei:list[@type]')` returns
`node.xpath('ancestor::tei:list[@type][1]/@type')[0]` — the position
predicate `[1]` counts along the reverse `ancestor::` axis, so it selects
the nearest such ancestor; with `ancestors` stored root-first that is the
last matching entry.  Else the empty string.  Python `None` is `none`, a
Python string `s` is `some s`. -/
def get_list_type (c : NodeCtx) : Option String :=
  if nameTest c.self "tei:list" && (pyGet c.self "type").isSome then
    pyGet c.self "type"
  else
    match (c.ancestors.filter (fun a => nameTest a "tei:list" && (pyGet a "type").isSome)).getLast? with
    | some a => pyGet a "type"
    | none => some ""

/-!
## The document analyzer (`api/v1/docs/analysis.py`)

`DocAnalysis` is the abstract base class; its subclasses supply the
`is_structural_node` / `is_basic_node` predicates (compiled from per-type
XPath grammars) and the shared default `get_node_type` dispatches on them.
`make_title` / `make_citetrail` have variant-specific result behaviour and
are embedded as standalone functions of each variant.
-/

/-- The capability set every document-type variant supplies to the shared
`get_node_type` default: the two classification predicates, each a pure
function of a node in its document context. -/
structure DocAnalysis where
  is_structural_node : NodeCtx → Bool
  is_basic_node : NodeCtx → Bool

/-- `DocAnalysis.get_node_type`, the shared default: `"structural"` if
`is_structural_node`, else `"basic"` if `is_basic_node`, else `""`. -/
def DocAnalysis.get_node_type (A : DocAnalysis) (c : NodeCtx) : String :=
  if A.is_structural_node c then "structural"
  else if A.is_basic_node c then "basic"
  else ""

/-- The Guidelines structural pattern `self::tei:div and ancestor::tei:text`
evaluated at a node `x` whose ancestor chain is `anc`. -/
def guidelines_structural_test (x : XmlNode) (anc : List XmlNode) : Bool :=
  nameTest x "tei:div" && anc.any (fun a => nameTest a "tei:text")

/-- The Guidelines leaf alternatives
`self::tei:p or self::tei:head or self::tei:list`. -/
def guidelines_leaf_test (x : XmlNode) : Bool :=
  nameTest x "tei:p" || nameTest x "tei:head" || nameTest x "tei:list"

/-- `GuidelinesAnalysis.is_structural_node`: the compiled XPath
`self::tei:div and ancestor::tei:text`. -/
def GuidelinesAnalysis.is_structural_node (c : NodeCtx) : Bool :=
  guidelines_structural_test c.self c.ancestors

/-- `GuidelinesAnalysis.is_basic_node`: the compiled XPath
`(self::tei:p or self::tei:head or self::tei:list) and
not(ancestor::*[self::tei:p or self::tei:head or self::tei:list])
and ancestor::*[self::tei:div and ancestor::tei:text]` (the class
concatenates its basic-node pattern with its structural-node pattern
wrapped in an `ancestor::*` predicate). -/
def GuidelinesAnalysis.is_basic_node (c : NodeCtx) : Bool :=
  (guidelines_leaf_test c.self && !(c.ancestors.any guidelines_leaf_test))
  && (ancestorContexts c.ancestors).any (fun p => guidelines_structural_test p.1 p.2)

/-- The `DocAnalysis` capability record of `GuidelinesAnalysis`. -/
def guidelinesAnalysis : DocAnalysis :=
  { is_structural_node := GuidelinesAnalysis.is_structural_node
    is_basic_node := GuidelinesAnalysis.is_basic_node }

/-- The Projectmembers structural pattern
`self::tei:listPerson[ancestor::tei:text]`. -/
def projectmembers_structural_test (x : XmlNode) (anc : List XmlNode) : Bool :=
  nameTest x "tei:listPerson" && anc.any (fun a => nameTest a "tei:text")

/-- The Projectmembers leaf alternatives
`self::tei:head or self::tei:org or self::tei:person`. -/
def projectmembers_leaf_test (x : XmlNode) : Bool :=
  nameTest x "tei:head" || nameTest x "tei:org" || nameTest x "tei:person"

/-- `ProjectmembersAnalysis.is_structural_node`. -/
def ProjectmembersAnalysis.is_structural_node (c : NodeCtx) : Bool :=
  projectmembers_structural_test c.self c.ancestors

/-- `ProjectmembersAnalysis.is_basic_node`: leaf pattern, no leaf ancestor,
and an `ancestor::*[...]` wrapping of the structural pattern. -/
def ProjectmembersAnalysis.is_basic_node (c : NodeCtx) : Bool :=
  (projectmembers_leaf_test c.self && !(c.ancestors.any projectmembers_leaf_test))
  && (ancestorContexts c.ancestors).any (fun p => projectmembers_structural_test p.1 p.2)

/-- The `DocAnalysis` capability record of `ProjectmembersAnalysis`. -/
def projectmembersAnalysis : DocAnalysis :=
  { is_structural_node := ProjectmembersAnalysis.is_structural_node
    is_basic_node := ProjectmembersAnalysis.is_basic_node }

/-- The Specialchars structural pattern
`self::tei:charDecl[ancestor::tei:teiHeader]`. -/
def specialchars_structural_test (x : XmlNode) (anc : List XmlNode) : Bool :=
  nameTest x "tei:charDecl" && anc.any (fun a => nameTest a "tei:teiHeader")

/-- `SpecialcharsAnalysis.is_structural_node`. -/
def SpecialcharsAnalysis.is_structural_node (c : NodeCtx) : Bool :=
  specialchars_structural_test c.self c.ancestors

/-- `SpecialcharsAnalysis.is_basic_node`: the basic pattern `self::tei:char`
concatenated with `and ancestor::*[self::tei:charDecl[ancestor::tei:teiHeader]]`. -/
def SpecialcharsAnalysis.is_basic_node (c : NodeCtx) : Bool :=
  nameTest c.self "tei:char"
  && (ancestorContexts c.ancestors).any (fun p => specialchars_structural_test p.1 p.2)

/-- The `DocAnalysis` capability record of `SpecialcharsAnalysis`. -/
def specialcharsAnalysis : DocAnalysis :=
  { is_structural_node := SpecialcharsAnalysis.is_structural_node
    is_basic_node := SpecialcharsAnalysis.is_basic_node }

/-!
## The citetrail mapping cache ("config")

`api/v1/docs/config.py` is not part of the sources here; only its consumer
is.  The accessor is therefore modelled from the spec.
-/

/-- Modelled from the spec: the document-scoped configuration object of the
missing `api/v1/docs/config.py`.  Per the spec it carries the Citetrail
Mapping Cache, "keyed by stable node identifier, valued by already-computed
citetrail string". -/
structure DocConfig where
  citetrail_mapping : List (String × String)

/-- Modelled from the spec: `config.get_citetrail_mapping(stable_id) ->
string` (the missing `DocConfig` accessor): looks the stable identifier up
in the Citetrail Mapping Cache and returns the stored citetrail.  Writes
(`put`) are per the spec "performed by the external indexer, not by the
analyzer", so the lookup leaves the cache unchanged; the cache state is
threaded explicitly so that effects on it stay observable. -/
def DocConfig.get_citetrail_mapping (cfg : DocConfig) (stable_id : String) :
    String × DocConfig :=
  ((((cfg.citetrail_mapping.find? (fun kv => kv.1 == stable_id)).map
      (fun kv => kv.2)).getD ""), cfg)

/-!
## Guidelines citetrails (`GuidelinesAnalysis.make_citetrail`)
-/

/-- The comprehension `[prec for prec in node.xpath('preceding-sibling::*')
if self.get_node_type(prec)]` of `GuidelinesAnalysis.make_citetrail`: the
XPath step keeps only element siblings (`*` is a name test), the Python
filter keeps those with truthy (non-empty) node type.  A sibling of the
context node has the same ancestor chain; `get_node_type` never inspects a
node's own preceding siblings, so their component is irrelevant and passed
as `[]`. -/
def GuidelinesAnalysis.citetrail_preceding (c : NodeCtx) : List XmlNode :=
  (c.precSiblings.filter (fun p => p.kind == NodeKind.element)).filter
    (fun p => py_truthy (DocAnalysis.get_node_type guidelinesAnalysis ⟨p, c.ancestors, []⟩))

/-- The comprehension `[anc for anc in node.xpath('ancestor::*') if
self.get_node_type(anc)]`: element ancestors (in document order, root
first) with truthy node type, each ancestor classified in its own context
(its ancestors are the entries before it in the chain). -/
def GuidelinesAnalysis.citetrail_ancestors (c : NodeCtx) : List (XmlNode × List XmlNode) :=
  ((ancestorContexts c.ancestors).filter (fun p => p.1.kind == NodeKind.element)).filter
    (fun p => py_truthy (DocAnalysis.get_node_type guidelinesAnalysis ⟨p.1, p.2, []⟩))

/-- `cite = str(len(citetrail_preceding) + 1)` — the numeric ordinal before
rendering. -/
def GuidelinesAnalysis.citetrail_ordinal (c : NodeCtx) : Nat :=
  (GuidelinesAnalysis.citetrail_preceding c).length + 1

/-- `GuidelinesAnalysis.make_citetrail`.  `citetrail = cite`; if the
classified-ancestor list is non-empty, `citetrail_parent =
citetrail_ancestors[::-1][0]` (the head of the reversed document-order
list, i.e. the nearest classified ancestor), and `citetrail =
self.config.get_citetrail_mapping(get_xml_id(citetrail_parent)) + '.' +
cite`.  The unused local `node_id = node.get('id')` of the source binds no
observable behaviour and is omitted.  The configuration (cache) state is
threaded through and returned alongside the result string. -/
def GuidelinesAnalysis.make_citetrail (cfg : DocConfig) (c : NodeCtx) :
    String × DocConfig :=
  let cite := toString (GuidelinesAnalysis.citetrail_ordinal c)
  match (GuidelinesAnalysis.citetrail_ancestors c).reverse with
  | [] => (cite, cfg)
  | parent :: _ =>
    let r := DocConfig.get_citetrail_mapping cfg (get_xml_id parent.1)
    (r.1 ++ "." ++ cite, r.2)

/-- `GuidelinesAnalysis.make_title`: returns the literal string
`'placeholder'` (marked `# TODO` in the source). -/
def GuidelinesAnalysis.make_title (_c : NodeCtx) : String :=
  "placeholder"

/-- `ProjectmembersAnalysis.make_title`: returns `'placeholder'` (`# TODO`). -/
def ProjectmembersAnalysis.make_title (_c : NodeCtx) : String :=
  "placeholder"

/-- `ProjectmembersAnalysis.make_citetrail`: returns `'placeholder'`
(`# TODO`). -/
def ProjectmembersAnalysis.make_citetrail (_c : NodeCtx) : String :=
  "placeholder"

/-- `SpecialcharsAnalysis.make_citetrail`: returns `'placeholder'`
(`# TODO`). -/
def SpecialcharsAnalysis.make_citetrail (_c : NodeCtx) : String :=
  "placeholder"

/-- `SpecialcharsAnalysis.make_title`.  The source guards its first branch
with `exists('self::tei:charDecl')`, but `xutils.exists` takes two
positional arguments `(elem, xpath_expr)`; calling it with a single
argument raises `TypeError` before any branch is taken, so every call of
this method fails with that exception.  Fallible code is embedded as
`Except`: the method's denotation is the `TypeError`, on every input. -/
def SpecialcharsAnalysis.make_title (_c : NodeCtx) : Except String (Option String) :=
  Except.error "TypeError: exists() missing 1 required positional argument: xpath_expr"

/-!
## The spec's reference citetrail algorithm

Stated in the spec's own words, to be compared with the embedded
`GuidelinesAnalysis.make_citetrail`.
-/

/-- The reference algorithm of the spec, followed literally: `ordinal` is
one plus the count of preceding siblings with non-empty `get_node_type`;
the classified ancestors are ordered nearest-first; if there is such an
ancestor, the nearest one's citetrail is looked up in the Citetrail Mapping
Cache under its stable identifier and the result is that citetrail, a dot,
and the ordinal; otherwise the result is the ordinal alone. -/
def citetrail_reference (cfg : DocConfig) (c : NodeCtx) : String :=
  let ordinal := 1 + (c.precSiblings.filter
    (fun p => py_truthy (DocAnalysis.get_node_type guidelinesAnalysis ⟨p, c.ancestors, []⟩))).length
  let ancs := ((ancestorContexts c.ancestors).filter
    (fun p => py_truthy (DocAnalysis.get_node_type guidelinesAnalysis ⟨p.1, p.2, []⟩))).reverse
  match ancs with
  | [] => toString ordinal
  | parent :: _ =>
    (DocConfig.get_citetrail_mapping cfg (get_xml_id parent.1)).1 ++ "." ++ toString ordinal

/-!
## Concrete sample nodes (witness and counterexample inputs)
-/

/-- A `tei:text` element (the Guidelines top-level text container). -/
def tei_text_node : XmlNode :=
  ⟨NodeKind.element, "tei:text", []⟩

/-- A `tei:div` element carrying the stable identifier `d1`. -/
def tei_div_node : XmlNode :=
  ⟨NodeKind.element, "tei:div", [("xml:id", "d1")]⟩

/-- A `tei:p` element with no attributes. -/
def tei_p_node : XmlNode :=
  ⟨NodeKind.element, "tei:p", []⟩

/-- A paragraph with no ancestors and no siblings. -/
def plain_p_ctx : NodeCtx :=
  ⟨tei_p_node, [], []⟩

/-- A comment node sitting inside `tei:text`/`tei:div`. -/
def comment_ctx : NodeCtx :=
  ⟨⟨NodeKind.comment, "comment-node", []⟩, [tei_text_node, tei_div_node], []⟩

/-- A first paragraph inside `tei:text`/`tei:div`: no preceding siblings. -/
def p1_ctx : NodeCtx :=
  ⟨tei_p_node, [tei_text_node, tei_div_node], []⟩

/-- A later sibling paragraph of `p1_ctx`: one preceding sibling. -/
def p2_ctx : NodeCtx :=
  ⟨tei_p_node, [tei_text_node, tei_div_node], [tei_p_node]⟩

/-- A `tei:list` element with a `type` attribute. -/
def typed_list_node : XmlNode :=
  ⟨NodeKind.element, "tei:list", [("type", "ordered")]⟩

/-- A `tei:item` nested under a typed `tei:list`. -/
def item_in_list_ctx : NodeCtx :=
  ⟨⟨NodeKind.element, "tei:item", []⟩, [tei_text_node, typed_list_node], []⟩

/-!
## Helper lemmas
-/

/-- A non-element node (comment or processing instruction) fails every name
test of the Guidelines grammar, so its node type is the empty string. -/
lemma guidelines_type_of_nonelement (p : XmlNode) (anc ps : List XmlNode)
    (h : (p.kind == NodeKind.element) = false) :
    DocAnalysis.get_node_type guidelinesAnalysis ⟨p, anc, ps⟩ = "" := by
  simp [DocAnalysis.get_node_type, guidelinesAnalysis, GuidelinesAnalysis.is_structural_node,
    GuidelinesAnalysis.is_basic_node, guidelines_structural_test, guidelines_leaf_test,
    nameTest, h]

/-- Filtering by a predicate that entails a first filter makes the first
filter redundant. -/
lemma filter_filter_subsumed {α : Type} (e q : α → Bool)
    (h : ∀ a, q a = true → e a = true) :
    ∀ l : List α, (l.filter e).filter q = l.filter q := by
  intro l
  induction l with
  | nil => rfl
  | cons a t ih =>
    cases he : e a <;> cases hq : q a <;>
      simp [List.filter_cons, he, hq, ih]
    exact absurd (h a hq) (by simp [he])

/-- A node the Guidelines grammar classifies (non-empty node type) passes
the element test: both the structural and the basic pattern start with a
name test on the node itself. -/
lemma guidelines_classified_is_element (p : XmlNode) (anc ps : List XmlNode)
    (h : py_truthy (DocAnalysis.get_node_type guidelinesAnalysis ⟨p, anc, ps⟩) = true) :
    (p.kind == NodeKind.element) = true := by
  cases hk : p.kind == NodeKind.element
  · rw [guidelines_type_of_nonelement p anc ps hk] at h
    simp [py_truthy] at h
  · rfl

/-- The element-step filter inside `citetrail_preceding` is subsumed by the
classification filter. -/
lemma citetrail_preceding_eq (c : NodeCtx) :
    GuidelinesAnalysis.citetrail_preceding c
      = c.precSiblings.filter
          (fun p => py_truthy (DocAnalysis.get_node_type guidelinesAnalysis ⟨p, c.ancestors, []⟩)) := by
  exact filter_filter_subsumed _ _
    (fun a ha => guidelines_classified_is_element a c.ancestors [] ha) c.precSiblings

/-- The element-step filter inside `citetrail_ancestors` is subsumed by the
classification filter. -/
lemma citetrail_ancestors_eq (c : NodeCtx) :
    GuidelinesAnalysis.citetrail_ancestors c
      = (ancestorContexts c.ancestors).filter
          (fun p => py_truthy (DocAnalysis.get_node_type guidelinesAnalysis ⟨p.1, p.2, []⟩)) := by
  exact filter_filter_subsumed _ _
    (fun a ha => guidelines_classified_is_element a.1 a.2 [] ha) (ancestorContexts c.ancestors)

/-- `getLast?` only returns members of the list. -/
lemma mem_of_getLast_opt {α : Type} : ∀ {l : List α} {a : α}, l.getLast? = some a → a ∈ l
  | [], _, h => by simp at h
  | [x], _, h => by
    simp [List.getLast?] at h
    simp [h]
  | x :: y :: u, a, h => by
    rw [List.getLast?_cons_cons] at h
    exact List.mem_cons_of_mem x (mem_of_getLast_opt h)

/-!
## The claims
-/

/-- C2.  For every node and every document-type variant, `get_node_type`
returns `"structural"` exactly when `is_structural_node` holds, `"basic"`
exactly when `is_structural_node` fails and `is_basic_node` holds, and the
empty string exactly when both fail: structural takes priority over basic
and the three outcomes are mutually exclusive and exhaustive. -/
theorem get_node_type_policy (A : DocAnalysis) (c : NodeCtx) :
    (A.get_node_type c = "structural" ↔ A.is_structural_node c = true)
    ∧ (A.get_node_type c = "basic"
        ↔ (A.is_structural_node c = false ∧ A.is_basic_node c = true))
    ∧ (A.get_node_type c = ""
        ↔ (A.is_structural_node c = false ∧ A.is_basic_node c = false)) := by
  cases hs : A.is_structural_node c <;> cases hb : A.is_basic_node c <;>
    simp [DocAnalysis.get_node_type, hs, hb]

/-- C4.  The unimplemented variant operations do not fail loudly: each of
`ProjectmembersAnalysis.make_citetrail`, `SpecialcharsAnalysis.make_citetrail`,
`GuidelinesAnalysis.make_title` and `ProjectmembersAnalysis.make_title`
returns the literal string `"placeholder"` (shown here on a concrete
paragraph node), contradicting the required "not implemented for this
document type" signal. -/
theorem unimplemented_ops_return_placeholder :
    ProjectmembersAnalysis.make_citetrail plain_p_ctx = "placeholder"
    ∧ SpecialcharsAnalysis.make_citetrail plain_p_ctx = "placeholder"
    ∧ GuidelinesAnalysis.make_title plain_p_ctx = "placeholder"
    ∧ ProjectmembersAnalysis.make_title plain_p_ctx = "placeholder" :=
  ⟨rfl, rfl, rfl, rfl⟩

/-- C5.  On a concrete node that is neither a `tei:charDecl` nor a
`tei:char`, `SpecialcharsAnalysis.make_title` does not return `None`: it
raises (its guard calls `exists` with one argument instead of two), so the
call is a `TypeError`, not `Except.ok none`. -/
theorem specialchars_make_title_raises :
    nameTest plain_p_ctx.self "tei:charDecl" = false
    ∧ nameTest plain_p_ctx.self "tei:char" = false
    ∧ SpecialcharsAnalysis.make_title plain_p_ctx
        = Except.error "TypeError: exists() missing 1 required positional argument: xpath_expr"
    ∧ SpecialcharsAnalysis.make_title plain_p_ctx ≠ Except.ok none := by
  refine ⟨by decide, by decide, rfl, by simp [SpecialcharsAnalysis.make_title]⟩

/-- C6.  `GuidelinesAnalysis.make_citetrail` never writes to the citetrail
mapping cache: the configuration state it returns is exactly the one it was
given. -/
theorem make_citetrail_preserves_cache (cfg : DocConfig) (c : NodeCtx) :
    (GuidelinesAnalysis.make_citetrail cfg c).2 = cfg := by
  unfold GuidelinesAnalysis.make_citetrail
  cases (GuidelinesAnalysis.citetrail_ancestors c).reverse with
  | nil => rfl
  | cons parent t => rfl

/-- C8.  A comment or processing-instruction node is never classified: it
fails `is_element`, and all three document-type variants give it node type
`""`. -/
theorem comments_pis_unclassified (c : NodeCtx)
    (h : c.self.kind = NodeKind.comment ∨ c.self.kind = NodeKind.procInstr) :
    is_element c.self = false
    ∧ DocAnalysis.get_node_type guidelinesAnalysis c = ""
    ∧ DocAnalysis.get_node_type projectmembersAnalysis c = ""
    ∧ DocAnalysis.get_node_type specialcharsAnalysis c = "" := by
  have hk : (c.self.kind == NodeKind.element) = false := by
    rcases h with h | h <;> simp [h]
  refine ⟨?_, ?_, ?_, ?_⟩
  · rcases h with h | h <;> simp [is_element, h]
  · simp [DocAnalysis.get_node_type, guidelinesAnalysis, GuidelinesAnalysis.is_structural_node,
      GuidelinesAnalysis.is_basic_node, guidelines_structural_test, guidelines_leaf_test,
      nameTest, hk]
  · simp [DocAnalysis.get_node_type, projectmembersAnalysis,
      ProjectmembersAnalysis.is_structural_node, ProjectmembersAnalysis.is_basic_node,
      projectmembers_structural_test, projectmembers_leaf_test, nameTest, hk]
  · simp [DocAnalysis.get_node_type, specialcharsAnalysis,
      SpecialcharsAnalysis.is_structural_node, SpecialcharsAnalysis.is_basic_node,
      specialchars_structural_test, nameTest, hk]

/-- Witness for C8 at a concrete comment node. -/
theorem comments_pis_unclassified_witness :
    is_element comment_ctx.self = false
    ∧ DocAnalysis.get_node_type guidelinesAnalysis comment_ctx = ""
    ∧ DocAnalysis.get_node_type projectmembersAnalysis comment_ctx = ""
    ∧ DocAnalysis.get_node_type specialcharsAnalysis comment_ctx = "" :=
  comments_pis_unclassified comment_ctx (Or.inl rfl)

/-- C9.  The string `" a"` contains a non-whitespace character, yet
`is_more_than_whitespace " a"` is `false`: `re.match` only inspects the
start of the string, so the claimed position-independence fails. -/
theorem is_more_than_whitespace_first_char_only :
    contains_non_whitespace " a" = true ∧ is_more_than_whitespace " a" = false := by
  decide

/-- C1.  For the Guidelines variant, `make_citetrail` computes exactly the
spec's reference algorithm: the 1-based rank among classified preceding
siblings, prefixed — when a classified ancestor exists — by the cached
citetrail of the nearest such ancestor, looked up under its stable
identifier, with a dot separator; and with no dot for a top-level node. -/
theorem make_citetrail_eq_reference (cfg : DocConfig) (c : NodeCtx) :
    (GuidelinesAnalysis.make_citetrail cfg c).1 = citetrail_reference cfg c := by
  have hord : GuidelinesAnalysis.citetrail_ordinal c
      = 1 + (c.precSiblings.filter
          (fun p => py_truthy (DocAnalysis.get_node_type guidelinesAnalysis ⟨p, c.ancestors, []⟩))).length := by
    unfold GuidelinesAnalysis.citetrail_ordinal
    rw [citetrail_preceding_eq]
    omega
  unfold GuidelinesAnalysis.make_citetrail citetrail_reference
  rw [citetrail_ancestors_eq, hord]
  cases ((ancestorContexts c.ancestors).filter
      (fun p => py_truthy (DocAnalysis.get_node_type guidelinesAnalysis ⟨p.1, p.2, []⟩))).reverse with
  | nil => rfl
  | cons parent t => rfl

/-- C3.  The Guidelines basic-node predicate holds only if the node matches
the leaf pattern, no ancestor matches the leaf pattern, and some ancestor
satisfies the structural pattern (a `tei:div` under a `tei:text`); and a
leaf-pattern node nested inside another leaf-pattern node is not basic and
gets node type `""`. -/
theorem guidelines_basic_characterization (c : NodeCtx) :
    (GuidelinesAnalysis.is_basic_node c = true →
      guidelines_leaf_test c.self = true
      ∧ c.ancestors.any guidelines_leaf_test = false
      ∧ (ancestorContexts c.ancestors).any
          (fun p => guidelines_structural_test p.1 p.2) = true)
    ∧ (guidelines_leaf_test c.self = true →
        c.ancestors.any guidelines_leaf_test = true →
        DocAnalysis.get_node_type guidelinesAnalysis c = "") := by
  constructor
  · intro h
    unfold GuidelinesAnalysis.is_basic_node at h
    simp only [Bool.and_eq_true, Bool.not_eq_true'] at h
    exact ⟨h.1.1, h.1.2, h.2⟩
  · intro hleaf hanc
    have hnames : c.self.name = "tei:p" ∨ c.self.name = "tei:head" ∨ c.self.name = "tei:list" := by
      unfold guidelines_leaf_test nameTest at hleaf
      simp only [Bool.or_eq_true, Bool.and_eq_true, beq_iff_eq] at hleaf
      tauto
    have hdiv : nameTest c.self "tei:div" = false := by
      rcases hnames with h | h | h <;> simp [nameTest, h]
    simp [DocAnalysis.get_node_type, guidelinesAnalysis, GuidelinesAnalysis.is_structural_node,
      guidelines_structural_test, hdiv, GuidelinesAnalysis.is_basic_node, hanc]

/-- C7.  Among classified siblings the citetrail ordinal is strictly
increasing in document order: if `n1` and `n2` are siblings (same ancestor
chain), `n1` precedes `n2` (the preceding siblings of `n2` are those of
`n1`, then `n1` itself, then possibly more), and both have non-empty
Guidelines node type, then `n1`'s ordinal is strictly below `n2`'s. -/
theorem citetrail_ordinal_strictly_increasing
    (n1 n2 : NodeCtx) (mid : List XmlNode)
    (hanc : n2.ancestors = n1.ancestors)
    (hps : n2.precSiblings = n1.precSiblings ++ n1.self :: mid)
    (h1 : py_truthy (DocAnalysis.get_node_type guidelinesAnalysis n1) = true)
    (h2 : py_truthy (DocAnalysis.get_node_type guidelinesAnalysis n2) = true) :
    GuidelinesAnalysis.citetrail_ordinal n1 < GuidelinesAnalysis.citetrail_ordinal n2 := by
  unfold GuidelinesAnalysis.citetrail_ordinal
  rw [citetrail_preceding_eq, citetrail_preceding_eq, hps, hanc]
  have hf : py_truthy
      (DocAnalysis.get_node_type guidelinesAnalysis ⟨n1.self, n1.ancestors, []⟩) = true := h1
  rw [List.filter_append, List.filter_cons]
  simp only [hf, if_true, List.length_append, List.length_cons]
  omega

/-- Witness for C7 at two concrete sibling paragraphs under a structural
`tei:div`. -/
theorem citetrail_ordinal_strictly_increasing_witness :
    GuidelinesAnalysis.citetrail_ordinal p1_ctx < GuidelinesAnalysis.citetrail_ordinal p2_ctx :=
  citetrail_ordinal_strictly_increasing p1_ctx p2_ctx [] rfl rfl (by decide) (by decide)

/-- C10.  `get_list_type` returns the node's own `type` attribute when the
node is a `tei:list` carrying one; otherwise the `type` of the nearest
`tei:list` ancestor carrying one (the last matching entry of the root-first
ancestor chain); otherwise the empty string — and it never returns Python
`None`. -/
theorem get_list_type_correct (c : NodeCtx) :
    ((nameTest c.self "tei:list" && (pyGet c.self "type").isSome) = true →
        get_list_type c = pyGet c.self "type")
    ∧ ((nameTest c.self "tei:list" && (pyGet c.self "type").isSome) = false →
        ∀ a, (c.ancestors.filter
            (fun x => nameTest x "tei:list" && (pyGet x "type").isSome)).getLast? = some a →
          get_list_type c = pyGet a "type")
    ∧ ((nameTest c.self "tei:list" && (pyGet c.self "type").isSome) = false →
        (c.ancestors.filter
            (fun x => nameTest x "tei:list" && (pyGet x "type").isSome)).getLast? = none →
          get_list_type c = some "")
    ∧ (get_list_type c).isSome = true := by
  refine ⟨?_, ?_, ?_, ?_⟩
  · intro h
    simp [get_list_type, h]
  · intro h a ha
    simp [get_list_type, h, ha]
  · intro h hnone
    simp [get_list_type, h, hnone]
  · unfold get_list_type
    split
    · rename_i h
      simp only [Bool.and_eq_true] at h
      exact h.2
    · rename_i h
      cases hlast : (c.ancestors.filter
          (fun x => nameTest x "tei:list" && (pyGet x "type").isSome)).getLast? with
      | none => simp [hlast]
      | some a =>
        have hmem := mem_of_getLast_opt hlast
        have hpred := (List.mem_filter.1 hmem).2
        simp only [Bool.and_eq_true] at hpred
        simp only [hlast]
        exact hpred.2

end Svsal
